import Mathlib

/-!
Verification development for the constraint-generation core of the
`compiler` crate: the integer constraint subsystem
(`src/compiler/src/constraints/integer/integer.rs`) and the program
resolution driver (`src/compiler/src/constraints/mod.rs`).

The width gadgets (`enforce_u8_add`, …), the value/type declarations and
the definition resolver live outside the provided sources; they are
external collaborators here, abstracted as parameters or modelled from
the spec where a concrete shape is needed.  Definitions whose doc
comment begins `Modelled from the spec:` are of that second kind.
-/

namespace Leo

/-- Modelled from the spec: the constraint system is an external
collaborator that accumulates primitive constraints in a single
deterministic sequential order.  Primitive constraints are opaque here,
so the system is the ordered sequence of constraints appended so far. -/
abbrev ConstraintSystem := List Nat

/-- Embeds the Rust enum `IntegerType` (the five declared integer types
a parameter may have). -/
inductive IntegerType where
  | U8
  | U16
  | U32
  | U64
  | U128
deriving DecidableEq

/-- Embeds the Rust enum `Integer`: a tagged union with one case per
fixed bit-width.  Modelled from the spec: each case wraps the
width-specific circuit-integer representation, abstracted to its
underlying value (the gadget types `UInt8`, …, are outside the provided
sources). -/
inductive Integer where
  | U8 (v : Nat)
  | U16 (v : Nat)
  | U32 (v : Nat)
  | U64 (v : Nat)
  | U128 (v : Nat)
deriving DecidableEq

/-- The width tag carried by an `Integer` value. -/
def Integer.getType : Integer → IntegerType
  | .U8 _ => .U8
  | .U16 _ => .U16
  | .U32 _ => .U32
  | .U64 _ => .U64
  | .U128 _ => .U128

/-- The underlying value wrapped by an `Integer`. -/
def Integer.val : Integer → Nat
  | .U8 v => v
  | .U16 v => v
  | .U32 v => v
  | .U64 v => v
  | .U128 v => v

/-- Rebuild an `Integer` from a width tag and an underlying value. -/
def Integer.retag : IntegerType → Nat → Integer
  | .U8, v => .U8 v
  | .U16, v => .U16 v
  | .U32, v => .U32 v
  | .U64, v => .U64 v
  | .U128, v => .U128 v

/-- Modelled from the spec: the human-readable rendering of an integer
operand used in error messages (the Rust `Display` impl is outside the
provided sources); renders the underlying value in decimal. -/
def Integer.render (i : Integer) : String :=
  Nat.repr i.val

/-- Modelled from the spec: the external gadget library's circuit
boolean, either a known constant or an allocated witness wire (possibly
negated). -/
inductive Boolean where
  | Is (wire : Nat)
  | Not (wire : Nat)
  | Constant (b : Bool)
deriving DecidableEq

/-- Modelled from the spec: a closure over a resolved function
definition; the driver only carries it opaquely into main-function
enforcement. -/
structure FunctionDef where
  name : String
deriving DecidableEq

/-- Embeds the Rust enum `ConstrainedValue`: the closed tagged union of
runtime values.  The spec's further aggregate kinds are represented by
`FieldElement` as a non-function, non-integer sample kind. -/
inductive ConstrainedValue where
  | Boolean (b : Leo.Boolean)
  | Integer (i : Leo.Integer)
  | FieldElement (f : Nat)
  | Function (f : Leo.FunctionDef)
deriving DecidableEq

/-- Embeds the Rust enum `IntegerError` (declared outside the provided
sources; variants and payloads follow the uses in
`integer.rs` and the spec's failure taxonomy). -/
inductive IntegerError where
  | CannotEvaluate (msg : String)
  | CannotEnforce (msg : String)
  | InvalidType (msg : String)
  | InvalidInteger (expected : String) (actual : String)
  | SynthesisError (msg : String)
deriving DecidableEq

/-- Embeds the Rust enum `CompilerError` (declared outside the provided
sources; variants follow the uses in `mod.rs` and the spec's error
taxonomy). -/
inductive CompilerError where
  | NoMain
  | NoMainFunction
  | ImportError (msg : String)
  | IntegerError (e : Leo.IntegerError)
deriving DecidableEq

/-- Embeds the Rust enum `Type` of declared static types, renamed `Ty`
because `Type` is reserved in Lean.  Modelled from the spec beyond the
integer case: `Boolean` and `FieldElement` stand for the non-integer
declared types. -/
inductive Ty where
  | IntegerType (t : Leo.IntegerType)
  | Boolean
  | FieldElement
deriving DecidableEq

/-- Modelled from the spec: the rendering of a declared type used when
an error names the offending type (`Type::to_string` is outside the
provided sources). -/
def Ty.render : Ty → String
  | .IntegerType .U8 => "u8"
  | .IntegerType .U16 => "u16"
  | .IntegerType .U32 => "u32"
  | .IntegerType .U64 => "u64"
  | .IntegerType .U128 => "u128"
  | .Boolean => "bool"
  | .FieldElement => "fe"

/-- Embeds the Rust enum `InputValue` (declared outside the provided
sources): a caller-supplied literal tagged with its claimed kind. -/
inductive InputValue where
  | Integer (n : Nat)
  | Boolean (b : Bool)
  | Field (n : Nat)
deriving DecidableEq

/-- Modelled from the spec: the rendering of a supplied literal used
when an error names the offending value. -/
def InputValue.render : InputValue → String
  | .Integer n => Nat.repr n
  | .Boolean b => cond b "true" "false"
  | .Field n => Nat.repr n

/-- Embeds the Rust struct `InputModel` (declared outside the provided
sources): a named parameter of `main` and its declared static type. -/
structure InputModel where
  variable_name : String
  _type : Ty
deriving DecidableEq

/-- Embeds the Rust struct `ConstrainedProgram`.  Modelled from the
spec: the name table is an order-preserving mapping from fully-qualified
name to `ConstrainedValue`. -/
structure ConstrainedProgram where
  identifiers : List (String × ConstrainedValue)
deriving DecidableEq

/-- Embeds `ConstrainedProgram::new`: the table starts empty. -/
def ConstrainedProgram.new : ConstrainedProgram := ⟨[]⟩

/-- Embeds `ConstrainedProgram::get`: look up a fully-qualified name. -/
def ConstrainedProgram.get (p : ConstrainedProgram) (name : String) :
    Option ConstrainedValue :=
  (p.identifiers.find? (fun kv => kv.1 == name)).map (fun kv => kv.2)

/-- The type of a width-specific arithmetic gadget operation: it takes
the constraint system and the two underlying values, and returns the
result (or a failure) together with the constraint system as mutated so
far — on failure the partially appended constraints remain (spec:
partial constraint-system state is not rolled back). -/
abbrev GadgetArith :=
  ConstraintSystem → Nat → Nat → Except IntegerError Nat × ConstraintSystem

/-- The type of a width-specific equality-enforcement gadget. -/
abbrev GadgetEnforceEq :=
  ConstraintSystem → Nat → Nat → Except IntegerError Unit × ConstraintSystem

/-- The type of a width-specific input-allocation routine
(`u8_from_input`, …); like its Rust counterpart it is a method of
`ConstrainedProgram`, so it takes and returns the name table too. -/
abbrev GadgetFromInput :=
  ConstrainedProgram → ConstraintSystem → InputModel → Option Nat →
    Except IntegerError ConstrainedValue × ConstrainedProgram × ConstraintSystem

/-- The width gadget layer (external collaborator from the spec; the
bodies of these routines are outside the provided sources).  The
integer subsystem is parameterised over it; theorems quantify over
every possible gadget behaviour. -/
structure IntegerGadgets where
  enforce_u8_add : GadgetArith
  enforce_u16_add : GadgetArith
  enforce_u32_add : GadgetArith
  enforce_u64_add : GadgetArith
  enforce_u128_add : GadgetArith
  enforce_u8_sub : GadgetArith
  enforce_u16_sub : GadgetArith
  enforce_u32_sub : GadgetArith
  enforce_u64_sub : GadgetArith
  enforce_u128_sub : GadgetArith
  enforce_u8_mul : GadgetArith
  enforce_u16_mul : GadgetArith
  enforce_u32_mul : GadgetArith
  enforce_u64_mul : GadgetArith
  enforce_u128_mul : GadgetArith
  enforce_u8_div : GadgetArith
  enforce_u16_div : GadgetArith
  enforce_u32_div : GadgetArith
  enforce_u64_div : GadgetArith
  enforce_u128_div : GadgetArith
  enforce_u8_pow : GadgetArith
  enforce_u16_pow : GadgetArith
  enforce_u32_pow : GadgetArith
  enforce_u64_pow : GadgetArith
  enforce_u128_pow : GadgetArith
  enforce_u8_eq : GadgetEnforceEq
  enforce_u16_eq : GadgetEnforceEq
  enforce_u32_eq : GadgetEnforceEq
  enforce_u64_eq : GadgetEnforceEq
  enforce_u128_eq : GadgetEnforceEq
  u8_from_input : GadgetFromInput
  u16_from_input : GadgetFromInput
  u32_from_input : GadgetFromInput
  u64_from_input : GadgetFromInput
  u128_from_integer : GadgetFromInput

/-- Embeds `evaluate_integer_eq` (integer.rs:20-39): pure,
constraint-free comparison; same-width operands yield a constant
boolean holding the primitive equality of the underlying values,
mismatched widths fail with `CannotEvaluate` rendering the attempted
comparison. -/
def evaluate_integer_eq (left right : Integer) :
    Except IntegerError ConstrainedValue :=
  match left, right with
  | .U8 left_u8, .U8 right_u8 =>
      .ok (.Boolean (.Constant (left_u8 == right_u8)))
  | .U16 left_u16, .U16 right_u16 =>
      .ok (.Boolean (.Constant (left_u16 == right_u16)))
  | .U32 left_u32, .U32 right_u32 =>
      .ok (.Boolean (.Constant (left_u32 == right_u32)))
  | .U64 left_u64, .U64 right_u64 =>
      .ok (.Boolean (.Constant (left_u64 == right_u64)))
  | .U128 left_u128, .U128 right_u128 =>
      .ok (.Boolean (.Constant (left_u128 == right_u128)))
  | left, right =>
      .error (.CannotEvaluate (left.render ++ " == " ++ right.render))

/-- Embeds `enforce_integer_eq` (integer.rs:76-104): dispatch on the
width pair to the matching equality gadget; mismatched widths fail with
`CannotEnforce` and touch nothing. -/
def enforce_integer_eq (gg : IntegerGadgets) (cs : ConstraintSystem)
    (left right : Integer) :
    Except IntegerError Unit × ConstraintSystem :=
  match left, right with
  | .U8 left_u8, .U8 right_u8 => gg.enforce_u8_eq cs left_u8 right_u8
  | .U16 left_u16, .U16 right_u16 => gg.enforce_u16_eq cs left_u16 right_u16
  | .U32 left_u32, .U32 right_u32 => gg.enforce_u32_eq cs left_u32 right_u32
  | .U64 left_u64, .U64 right_u64 => gg.enforce_u64_eq cs left_u64 right_u64
  | .U128 left_u128, .U128 right_u128 => gg.enforce_u128_eq cs left_u128 right_u128
  | left, right =>
      (.error (.CannotEnforce (left.render ++ " == " ++ right.render)), cs)

/-- Embeds `enforce_integer_add` (integer.rs:106-131): dispatch to the
matching width's add gadget, wrap the result in the same width tag and
in `ConstrainedValue::Integer`; a gadget failure propagates unchanged
(with the constraint system as the gadget left it); mismatched widths
fail with `CannotEnforce "left + right"`. -/
def enforce_integer_add (gg : IntegerGadgets) (cs : ConstraintSystem)
    (left right : Integer) :
    Except IntegerError ConstrainedValue × ConstraintSystem :=
  match left, right with
  | .U8 left_u8, .U8 right_u8 =>
      match gg.enforce_u8_add cs left_u8 right_u8 with
      | (.ok v, cs') => (.ok (.Integer (.U8 v)), cs')
      | (.error e, cs') => (.error e, cs')
  | .U16 left_u16, .U16 right_u16 =>
      match gg.enforce_u16_add cs left_u16 right_u16 with
      | (.ok v, cs') => (.ok (.Integer (.U16 v)), cs')
      | (.error e, cs') => (.error e, cs')
  | .U32 left_u32, .U32 right_u32 =>
      match gg.enforce_u32_add cs left_u32 right_u32 with
      | (.ok v, cs') => (.ok (.Integer (.U32 v)), cs')
      | (.error e, cs') => (.error e, cs')
  | .U64 left_u64, .U64 right_u64 =>
      match gg.enforce_u64_add cs left_u64 right_u64 with
      | (.ok v, cs') => (.ok (.Integer (.U64 v)), cs')
      | (.error e, cs') => (.error e, cs')
  | .U128 left_u128, .U128 right_u128 =>
      match gg.enforce_u128_add cs left_u128 right_u128 with
      | (.ok v, cs') => (.ok (.Integer (.U128 v)), cs')
      | (.error e, cs') => (.error e, cs')
  | left, right =>
      (.error (.CannotEnforce (left.render ++ " + " ++ right.render)), cs)

/-- Embeds `enforce_integer_sub` (integer.rs:132-157), same shape as
addition with the `-` operator symbol. -/
def enforce_integer_sub (gg : IntegerGadgets) (cs : ConstraintSystem)
    (left right : Integer) :
    Except IntegerError ConstrainedValue × ConstraintSystem :=
  match left, right with
  | .U8 left_u8, .U8 right_u8 =>
      match gg.enforce_u8_sub cs left_u8 right_u8 with
      | (.ok v, cs') => (.ok (.Integer (.U8 v)), cs')
      | (.error e, cs') => (.error e, cs')
  | .U16 left_u16, .U16 right_u16 =>
      match gg.enforce_u16_sub cs left_u16 right_u16 with
      | (.ok v, cs') => (.ok (.Integer (.U16 v)), cs')
      | (.error e, cs') => (.error e, cs')
  | .U32 left_u32, .U32 right_u32 =>
      match gg.enforce_u32_sub cs left_u32 right_u32 with
      | (.ok v, cs') => (.ok (.Integer (.U32 v)), cs')
      | (.error e, cs') => (.error e, cs')
  | .U64 left_u64, .U64 right_u64 =>
      match gg.enforce_u64_sub cs left_u64 right_u64 with
      | (.ok v, cs') => (.ok (.Integer (.U64 v)), cs')
      | (.error e, cs') => (.error e, cs')
  | .U128 left_u128, .U128 right_u128 =>
      match gg.enforce_u128_sub cs left_u128 right_u128 with
      | (.ok v, cs') => (.ok (.Integer (.U128 v)), cs')
      | (.error e, cs') => (.error e, cs')
  | left, right =>
      (.error (.CannotEnforce (left.render ++ " - " ++ right.render)), cs)

/-- Embeds `enforce_integer_mul` (integer.rs:158-183), same shape with
the `*` operator symbol. -/
def enforce_integer_mul (gg : IntegerGadgets) (cs : ConstraintSystem)
    (left right : Integer) :
    Except IntegerError ConstrainedValue × ConstraintSystem :=
  match left, right with
  | .U8 left_u8, .U8 right_u8 =>
      match gg.enforce_u8_mul cs left_u8 right_u8 with
      | (.ok v, cs') => (.ok (.Integer (.U8 v)), cs')
      | (.error e, cs') => (.error e, cs')
  | .U16 left_u16, .U16 right_u16 =>
      match gg.enforce_u16_mul cs left_u16 right_u16 with
      | (.ok v, cs') => (.ok (.Integer (.U16 v)), cs')
      | (.error e, cs') => (.error e, cs')
  | .U32 left_u32, .U32 right_u32 =>
      match gg.enforce_u32_mul cs left_u32 right_u32 with
      | (.ok v, cs') => (.ok (.Integer (.U32 v)), cs')
      | (.error e, cs') => (.error e, cs')
  | .U64 left_u64, .U64 right_u64 =>
      match gg.enforce_u64_mul cs left_u64 right_u64 with
      | (.ok v, cs') => (.ok (.Integer (.U64 v)), cs')
      | (.error e, cs') => (.error e, cs')
  | .U128 left_u128, .U128 right_u128 =>
      match gg.enforce_u128_mul cs left_u128 right_u128 with
      | (.ok v, cs') => (.ok (.Integer (.U128 v)), cs')
      | (.error e, cs') => (.error e, cs')
  | left, right =>
      (.error (.CannotEnforce (left.render ++ " * " ++ right.render)), cs)

/-- Embeds `enforce_integer_div` (integer.rs:184-209), same shape with
the `/` operator symbol. -/
def enforce_integer_div (gg : IntegerGadgets) (cs : ConstraintSystem)
    (left right : Integer) :
    Except IntegerError ConstrainedValue × ConstraintSystem :=
  match left, right with
  | .U8 left_u8, .U8 right_u8 =>
      match gg.enforce_u8_div cs left_u8 right_u8 with
      | (.ok v, cs') => (.ok (.Integer (.U8 v)), cs')
      | (.error e, cs') => (.error e, cs')
  | .U16 left_u16, .U16 right_u16 =>
      match gg.enforce_u16_div cs left_u16 right_u16 with
      | (.ok v, cs') => (.ok (.Integer (.U16 v)), cs')
      | (.error e, cs') => (.error e, cs')
  | .U32 left_u32, .U32 right_u32 =>
      match gg.enforce_u32_div cs left_u32 right_u32 with
      | (.ok v, cs') => (.ok (.Integer (.U32 v)), cs')
      | (.error e, cs') => (.error e, cs')
  | .U64 left_u64, .U64 right_u64 =>
      match gg.enforce_u64_div cs left_u64 right_u64 with
      | (.ok v, cs') => (.ok (.Integer (.U64 v)), cs')
      | (.error e, cs') => (.error e, cs')
  | .U128 left_u128, .U128 right_u128 =>
      match gg.enforce_u128_div cs left_u128 right_u128 with
      | (.ok v, cs') => (.ok (.Integer (.U128 v)), cs')
      | (.error e, cs') => (.error e, cs')
  | left, right =>
      (.error (.CannotEnforce (left.render ++ " / " ++ right.render)), cs)

/-- Embeds `enforce_integer_pow` (integer.rs:210-238), same shape with
the `**` operator symbol. -/
def enforce_integer_pow (gg : IntegerGadgets) (cs : ConstraintSystem)
    (left right : Integer) :
    Except IntegerError ConstrainedValue × ConstraintSystem :=
  match left, right with
  | .U8 left_u8, .U8 right_u8 =>
      match gg.enforce_u8_pow cs left_u8 right_u8 with
      | (.ok v, cs') => (.ok (.Integer (.U8 v)), cs')
      | (.error e, cs') => (.error e, cs')
  | .U16 left_u16, .U16 right_u16 =>
      match gg.enforce_u16_pow cs left_u16 right_u16 with
      | (.ok v, cs') => (.ok (.Integer (.U16 v)), cs')
      | (.error e, cs') => (.error e, cs')
  | .U32 left_u32, .U32 right_u32 =>
      match gg.enforce_u32_pow cs left_u32 right_u32 with
      | (.ok v, cs') => (.ok (.Integer (.U32 v)), cs')
      | (.error e, cs') => (.error e, cs')
  | .U64 left_u64, .U64 right_u64 =>
      match gg.enforce_u64_pow cs left_u64 right_u64 with
      | (.ok v, cs') => (.ok (.Integer (.U64 v)), cs')
      | (.error e, cs') => (.error e, cs')
  | .U128 left_u128, .U128 right_u128 =>
      match gg.enforce_u128_pow cs left_u128 right_u128 with
      | (.ok v, cs') => (.ok (.Integer (.U128 v)), cs')
      | (.error e, cs') => (.error e, cs')
  | left, right =>
      (.error (.CannotEnforce (left.render ++ " ** " ++ right.render)), cs)

/-- Embeds `integer_from_parameter` (integer.rs:41-74): require the
declared type to be an integer type (`InvalidType` otherwise); require a
present literal to be an `InputValue::Integer` (`InvalidInteger`
otherwise, naming the declared type and the literal's rendering); then
dispatch on the declared width to the matching input-allocation
routine. -/
def integer_from_parameter (gg : IntegerGadgets) (self : ConstrainedProgram)
    (cs : ConstraintSystem) (integer_model : InputModel)
    (integer_value : Option InputValue) :
    Except IntegerError ConstrainedValue × ConstrainedProgram × ConstraintSystem :=
  match integer_model._type with
  | Ty.IntegerType integer_type =>
      let checked : Except IntegerError (Option Nat) :=
        match integer_value with
        | some parameter =>
            match parameter with
            | InputValue.Integer integer => .ok (some integer)
            | parameter =>
                .error (.InvalidInteger integer_model._type.render parameter.render)
        | none => .ok none
      match checked with
      | .error e => (.error e, self, cs)
      | .ok integer_option =>
          match integer_type with
          | IntegerType.U8 => gg.u8_from_input self cs integer_model integer_option
          | IntegerType.U16 => gg.u16_from_input self cs integer_model integer_option
          | IntegerType.U32 => gg.u32_from_input self cs integer_model integer_option
          | IntegerType.U64 => gg.u64_from_input self cs integer_model integer_option
          | IntegerType.U128 => gg.u128_from_integer self cs integer_model integer_option
  | t => (.error (.InvalidType t.render), self, cs)

/-- Modelled from the spec: `new_scope` (declared outside the provided
sources) joins an outer scope name with an identifier to form the
scope-qualified name. -/
def new_scope (outer inner : String) : String :=
  outer ++ "_" ++ inner

/-- Embeds the Rust struct `Program` (declared outside the provided
sources): the resolved program AST.  Modelled from the spec: a name and
the top-level definitions the resolver will place into the name table;
the definitions' own structure is opaque to the driver. -/
structure Program where
  name : String
  definitions : List (String × ConstrainedValue)
deriving DecidableEq

/-- Embeds `Program::get_name`. -/
def Program.get_name (p : Program) : String := p.name

/-- The driver's external collaborators (spec §4.2 steps 2 and 5; their
bodies are outside the provided sources): definition resolution into
the name table and main-function enforcement.  `generate_constraints`
is parameterised over them; theorems quantify over every behaviour. -/
structure Collaborators where
  resolve_definitions :
    ConstrainedProgram → ConstraintSystem → Program →
      Except CompilerError (ConstrainedProgram × ConstraintSystem)
  enforce_main_function :
    ConstrainedProgram → ConstraintSystem → String → FunctionDef →
      List (Option InputValue) →
      Except CompilerError (ConstrainedValue × ConstraintSystem)

/-- Embeds `generate_constraints` (mod.rs:40-64): create an empty name
table, resolve all top-level definitions (propagating any resolver
error), look up `main` under the program's own scope (`NoMain` when
missing), require it to be a function (`NoMainFunction` otherwise), and
enforce the main function with the positional parameters. -/
def generate_constraints (env : Collaborators) (cs : ConstraintSystem)
    (program : Program) (parameters : List (Option InputValue)) :
    Except CompilerError (ConstrainedValue × ConstraintSystem) :=
  let resolved_program := ConstrainedProgram.new
  let program_name := program.get_name
  let main_function_name := new_scope program_name "main"
  match env.resolve_definitions resolved_program cs program with
  | .error e => .error e
  | .ok (resolved_program, cs) =>
      match resolved_program.get main_function_name with
      | none => .error CompilerError.NoMain
      | some main =>
          match main with
          | ConstrainedValue.Function function =>
              match env.enforce_main_function resolved_program cs program_name
                  function parameters with
              | .error e => .error e
              | .ok (result, cs) => .ok (result, cs)
          | _ => .error CompilerError.NoMainFunction

/-! Formalisation devices: a uniform view of the five arithmetic
operators, and "call in context" wrappers recording that the
associated-function operators carry no program state. -/

/-- The five constrained arithmetic operators. -/
inductive ArithOp where
  | add
  | sub
  | mul
  | div
  | pow
deriving DecidableEq

/-- The operator symbol used in width-mismatch error messages. -/
def ArithOp.symbol : ArithOp → String
  | .add => "+"
  | .sub => "-"
  | .mul => "*"
  | .div => "/"
  | .pow => "**"

/-- Uniform dispatcher over the five `enforce_integer_*` operators. -/
def enforce_integer_arith (op : ArithOp) (gg : IntegerGadgets)
    (cs : ConstraintSystem) (left right : Integer) :
    Except IntegerError ConstrainedValue × ConstraintSystem :=
  match op with
  | .add => enforce_integer_add gg cs left right
  | .sub => enforce_integer_sub gg cs left right
  | .mul => enforce_integer_mul gg cs left right
  | .div => enforce_integer_div gg cs left right
  | .pow => enforce_integer_pow gg cs left right

/-- The gadget-layer routine that `enforce_integer_*` delegates to, for
a given operator and width. -/
def IntegerGadgets.arith (gg : IntegerGadgets) :
    ArithOp → IntegerType → GadgetArith
  | .add, .U8 => gg.enforce_u8_add
  | .add, .U16 => gg.enforce_u16_add
  | .add, .U32 => gg.enforce_u32_add
  | .add, .U64 => gg.enforce_u64_add
  | .add, .U128 => gg.enforce_u128_add
  | .sub, .U8 => gg.enforce_u8_sub
  | .sub, .U16 => gg.enforce_u16_sub
  | .sub, .U32 => gg.enforce_u32_sub
  | .sub, .U64 => gg.enforce_u64_sub
  | .sub, .U128 => gg.enforce_u128_sub
  | .mul, .U8 => gg.enforce_u8_mul
  | .mul, .U16 => gg.enforce_u16_mul
  | .mul, .U32 => gg.enforce_u32_mul
  | .mul, .U64 => gg.enforce_u64_mul
  | .mul, .U128 => gg.enforce_u128_mul
  | .div, .U8 => gg.enforce_u8_div
  | .div, .U16 => gg.enforce_u16_div
  | .div, .U32 => gg.enforce_u32_div
  | .div, .U64 => gg.enforce_u64_div
  | .div, .U128 => gg.enforce_u128_div
  | .pow, .U8 => gg.enforce_u8_pow
  | .pow, .U16 => gg.enforce_u16_pow
  | .pow, .U32 => gg.enforce_u32_pow
  | .pow, .U64 => gg.enforce_u64_pow
  | .pow, .U128 => gg.enforce_u128_pow

/-- `evaluate_integer_eq` run next to a constraint system it never
receives: records that the pure comparison cannot touch `cs`. -/
def evaluate_integer_eq_withCS (cs : ConstraintSystem) (left right : Integer) :
    Except IntegerError ConstrainedValue × ConstraintSystem :=
  (evaluate_integer_eq left right, cs)

/-- `evaluate_integer_eq` called from a `ConstrainedProgram` context: as
in the source it is an associated function taking no program state, so
the call leaves the name table next to the result untouched. -/
def evaluate_integer_eq_call (p : ConstrainedProgram) (left right : Integer) :
    Except IntegerError ConstrainedValue × ConstrainedProgram :=
  (evaluate_integer_eq left right, p)

/-- `enforce_integer_eq` called from a `ConstrainedProgram` context. -/
def enforce_integer_eq_call (p : ConstrainedProgram) (gg : IntegerGadgets)
    (cs : ConstraintSystem) (left right : Integer) :
    (Except IntegerError Unit × ConstraintSystem) × ConstrainedProgram :=
  (enforce_integer_eq gg cs left right, p)

/-- An `enforce_integer_*` operator called from a `ConstrainedProgram`
context. -/
def enforce_integer_arith_call (p : ConstrainedProgram) (op : ArithOp)
    (gg : IntegerGadgets) (cs : ConstraintSystem) (left right : Integer) :
    (Except IntegerError ConstrainedValue × ConstraintSystem) × ConstrainedProgram :=
  (enforce_integer_arith op gg cs left right, p)

/-! Sample collaborator instances, used to instantiate the theorems at
concrete inputs. -/

/-- A sample arithmetic gadget: wraps the combined value modulo `m` and
appends one constraint tagged `t`. -/
def sampleArith (m t : Nat) (f : Nat → Nat → Nat) : GadgetArith :=
  fun cs a b => (.ok (f a b % m), cs ++ [t])

/-- A sample division gadget: fails on a zero divisor after appending
its constraint, as a gadget may. -/
def sampleDiv (m : Nat) : GadgetArith :=
  fun cs a b =>
    if b == 0 then (.error (.SynthesisError "division by zero"), cs ++ [4])
    else (.ok (a / b % m), cs ++ [4])

/-- A sample equality-enforcement gadget: appends one constraint. -/
def sampleEnforceEq : GadgetEnforceEq :=
  fun cs _ _ => (.ok (), cs ++ [6])

/-- A sample input-allocation routine for width `w`. -/
def sampleFromInput (w : IntegerType) : GadgetFromInput :=
  fun p cs _ o => (.ok (.Integer (Integer.retag w (o.getD 0))), p, cs ++ [7])

/-- A concrete width gadget layer assembled from the samples. -/
def demoGadgets : IntegerGadgets where
  enforce_u8_add := sampleArith (2 ^ 8) 1 (· + ·)
  enforce_u16_add := sampleArith (2 ^ 16) 1 (· + ·)
  enforce_u32_add := sampleArith (2 ^ 32) 1 (· + ·)
  enforce_u64_add := sampleArith (2 ^ 64) 1 (· + ·)
  enforce_u128_add := sampleArith (2 ^ 128) 1 (· + ·)
  enforce_u8_sub := sampleArith (2 ^ 8) 2 (· - ·)
  enforce_u16_sub := sampleArith (2 ^ 16) 2 (· - ·)
  enforce_u32_sub := sampleArith (2 ^ 32) 2 (· - ·)
  enforce_u64_sub := sampleArith (2 ^ 64) 2 (· - ·)
  enforce_u128_sub := sampleArith (2 ^ 128) 2 (· - ·)
  enforce_u8_mul := sampleArith (2 ^ 8) 3 (· * ·)
  enforce_u16_mul := sampleArith (2 ^ 16) 3 (· * ·)
  enforce_u32_mul := sampleArith (2 ^ 32) 3 (· * ·)
  enforce_u64_mul := sampleArith (2 ^ 64) 3 (· * ·)
  enforce_u128_mul := sampleArith (2 ^ 128) 3 (· * ·)
  enforce_u8_div := sampleDiv (2 ^ 8)
  enforce_u16_div := sampleDiv (2 ^ 16)
  enforce_u32_div := sampleDiv (2 ^ 32)
  enforce_u64_div := sampleDiv (2 ^ 64)
  enforce_u128_div := sampleDiv (2 ^ 128)
  enforce_u8_pow := sampleArith (2 ^ 8) 5 (· ^ ·)
  enforce_u16_pow := sampleArith (2 ^ 16) 5 (· ^ ·)
  enforce_u32_pow := sampleArith (2 ^ 32) 5 (· ^ ·)
  enforce_u64_pow := sampleArith (2 ^ 64) 5 (· ^ ·)
  enforce_u128_pow := sampleArith (2 ^ 128) 5 (· ^ ·)
  enforce_u8_eq := sampleEnforceEq
  enforce_u16_eq := sampleEnforceEq
  enforce_u32_eq := sampleEnforceEq
  enforce_u64_eq := sampleEnforceEq
  enforce_u128_eq := sampleEnforceEq
  u8_from_input := sampleFromInput .U8
  u16_from_input := sampleFromInput .U16
  u32_from_input := sampleFromInput .U32
  u64_from_input := sampleFromInput .U64
  u128_from_integer := sampleFromInput .U128

/-- A concrete resolver: installs every top-level definition under its
scope-qualified name, in order, appending nothing to the system. -/
def demoResolve : ConstrainedProgram → ConstraintSystem → Program →
    Except CompilerError (ConstrainedProgram × ConstraintSystem) :=
  fun tbl cs p =>
    .ok (⟨tbl.identifiers ++ p.definitions.map (fun d => (new_scope p.name d.1, d.2))⟩, cs)

/-- A concrete main-function enforcement: returns `u8 7` and appends
one constraint. -/
def demoEnforceMain : ConstrainedProgram → ConstraintSystem → String →
    FunctionDef → List (Option InputValue) →
    Except CompilerError (ConstrainedValue × ConstraintSystem) :=
  fun _ cs _ _ _ => .ok (.Integer (.U8 7), cs ++ [9])

/-- Concrete driver collaborators. -/
def demoEnv : Collaborators :=
  ⟨demoResolve, demoEnforceMain⟩

/-- Driver collaborators whose resolver always fails. -/
def demoFailEnv : Collaborators :=
  ⟨fun _ _ _ => .error (.ImportError "unresolved import"), demoEnforceMain⟩

/-- A program whose `main` resolves to a function. -/
def demoProgramMain : Program :=
  ⟨"prog", [("main", .Function ⟨"main"⟩)]⟩

/-- A program with no top-level definitions at all. -/
def demoProgramEmpty : Program :=
  ⟨"prog", []⟩

/-- A program whose `main` resolves to a non-function value. -/
def demoProgramBadMain : Program :=
  ⟨"prog", [("main", .Integer (.U8 0))]⟩

/-- C10: `evaluate_integer_eq`, `enforce_integer_eq` and the five
`enforce_integer_*` operators never read or modify the
`ConstrainedProgram` name table: called in the context of any program
state, each leaves the name table unchanged whatever its result, the
constraint system handle being the only mutable state they receive. -/
theorem integer_ops_preserve_name_table (p : ConstrainedProgram)
    (gg : IntegerGadgets) (cs : ConstraintSystem) (left right : Integer) :
    (evaluate_integer_eq_call p left right).2 = p
      ∧ (enforce_integer_eq_call p gg cs left right).2 = p
      ∧ ∀ op, (enforce_integer_arith_call p op gg cs left right).2 = p :=
  ⟨rfl, rfl, fun _ => rfl⟩

/-- C5: `evaluate_integer_eq` succeeds exactly on same-width operands,
returning a constant boolean holding the primitive equality of the two
underlying values; on differing width tags it fails with
`CannotEvaluate` rendering `left == right`; and it never touches the
constraint system. -/
theorem evaluate_integer_eq_spec (left right : Integer) :
    (left.getType = right.getType →
        evaluate_integer_eq left right
          = .ok (.Boolean (.Constant (left.val == right.val))))
      ∧ (left.getType ≠ right.getType →
        evaluate_integer_eq left right
          = .error (.CannotEvaluate (left.render ++ " == " ++ right.render)))
      ∧ ∀ cs, (evaluate_integer_eq_withCS cs left right).2 = cs := by
  refine ⟨?_, ?_, fun cs => rfl⟩
  · intro h
    cases left <;> cases right <;> first | rfl | exact nomatch h
  · intro h
    cases left <;> cases right <;> first | exact absurd rfl h | rfl

/-- Witness for C5 at concrete inputs: same widths compare the values,
different widths fail. -/
theorem evaluate_integer_eq_spec_witness :
    evaluate_integer_eq (.U8 3) (.U8 3) = .ok (.Boolean (.Constant true))
      ∧ evaluate_integer_eq (.U8 3) (.U16 3)
          = .error (.CannotEvaluate ((Integer.U8 3).render ++ " == " ++ (Integer.U16 3).render)) :=
  ⟨(evaluate_integer_eq_spec (.U8 3) (.U8 3)).1 rfl,
   (evaluate_integer_eq_spec (.U8 3) (.U16 3)).2.1 (by decide)⟩

/-- Helper: on same-width operands `evaluate_integer_eq` compares the
underlying values. -/
theorem evaluate_integer_eq_of_getType_eq (left right : Integer)
    (h : left.getType = right.getType) :
    evaluate_integer_eq left right
      = .ok (.Boolean (.Constant (left.val == right.val))) := by
  cases left <;> cases right <;> first | rfl | exact nomatch h

/-- Helper: an `Integer` is determined by its width tag and its
underlying value. -/
theorem Integer.eq_of_getType_val (a b : Integer)
    (ht : a.getType = b.getType) (hv : a.val = b.val) : a = b := by
  cases a <;> cases b <;> simp_all [Integer.getType, Integer.val]

/-- C6: `evaluate_integer_eq` on equal values returns the constant
boolean `true`, and on distinct same-width values returns the constant
boolean `false`. -/
theorem evaluate_integer_eq_refl_and_ne (a b : Integer) :
    evaluate_integer_eq a a = .ok (.Boolean (.Constant true))
      ∧ (a.getType = b.getType → a ≠ b →
        evaluate_integer_eq a b = .ok (.Boolean (.Constant false))) := by
  constructor
  · rw [evaluate_integer_eq_of_getType_eq a a rfl]
    simp
  · intro h hne
    rw [evaluate_integer_eq_of_getType_eq a b h]
    have hv : (a.val == b.val) = false :=
      beq_eq_false_iff_ne.mpr (fun hv => hne (Integer.eq_of_getType_val a b h hv))
    rw [hv]

/-- Witness for C6 at concrete inputs. -/
theorem evaluate_integer_eq_refl_and_ne_witness :
    evaluate_integer_eq (.U8 5) (.U8 5) = .ok (.Boolean (.Constant true))
      ∧ evaluate_integer_eq (.U8 1) (.U8 2) = .ok (.Boolean (.Constant false)) :=
  ⟨(evaluate_integer_eq_refl_and_ne (.U8 5) (.U8 5)).1,
   (evaluate_integer_eq_refl_and_ne (.U8 1) (.U8 2)).2 rfl (by decide)⟩

/-- C2: on same-width operands each of the five `enforce_integer_*`
operators delegates to the width-matching gadget operation, wraps the
gadget's result back in the same width tag inside
`ConstrainedValue::Integer`, and propagates any gadget failure
unchanged (same error value, constraint system as the gadget left
it). -/
theorem enforce_integer_arith_delegates (gg : IntegerGadgets)
    (cs : ConstraintSystem) (left right : Integer)
    (h : left.getType = right.getType) (op : ArithOp) :
    (∀ v cs', gg.arith op left.getType cs left.val right.val = (.ok v, cs') →
        enforce_integer_arith op gg cs left right
          = (.ok (.Integer (Integer.retag left.getType v)), cs'))
      ∧ (∀ e cs', gg.arith op left.getType cs left.val right.val = (.error e, cs') →
        enforce_integer_arith op gg cs left right = (.error e, cs')) := by
  cases left <;> cases right <;> first
    | (cases op <;>
        refine ⟨fun v cs' hg => ?_, fun e cs' hg => ?_⟩ <;>
        simp only [IntegerGadgets.arith, Integer.getType, Integer.val] at hg <;>
        simp only [enforce_integer_arith, enforce_integer_add,
          enforce_integer_sub, enforce_integer_mul, enforce_integer_div,
          enforce_integer_pow, Integer.retag, Integer.getType] <;>
        rw [hg])
    | exact nomatch h

/-- Witness for C2: an 8-bit addition delegates to the sample add
gadget, and a failing 8-bit division propagates the gadget's error. -/
theorem enforce_integer_arith_delegates_witness :
    enforce_integer_arith .add demoGadgets [] (.U8 3) (.U8 4)
        = (.ok (.Integer (.U8 7)), [1])
      ∧ enforce_integer_arith .div demoGadgets [] (.U8 3) (.U8 0)
        = (.error (.SynthesisError "division by zero"), [4]) :=
  ⟨(enforce_integer_arith_delegates demoGadgets [] (.U8 3) (.U8 4) rfl .add).1
      7 [1] rfl,
   (enforce_integer_arith_delegates demoGadgets [] (.U8 3) (.U8 0) rfl .div).2
      (.SynthesisError "division by zero") [4] rfl⟩

/-- C3: on operands with differing width tags, `enforce_integer_eq`
fails with `CannotEnforce "left == right"` and each arithmetic operator
fails with `CannotEnforce "left op right"` for its operator symbol
(`+`, `-`, `*`, `/`, `**`); mismatched widths are never implicitly
widened or narrowed. -/
theorem enforce_integer_mismatch_messages (gg : IntegerGadgets)
    (cs : ConstraintSystem) (left right : Integer)
    (h : left.getType ≠ right.getType) :
    (enforce_integer_eq gg cs left right).1
        = .error (.CannotEnforce (left.render ++ " == " ++ right.render))
      ∧ (enforce_integer_add gg cs left right).1
        = .error (.CannotEnforce (left.render ++ " + " ++ right.render))
      ∧ (enforce_integer_sub gg cs left right).1
        = .error (.CannotEnforce (left.render ++ " - " ++ right.render))
      ∧ (enforce_integer_mul gg cs left right).1
        = .error (.CannotEnforce (left.render ++ " * " ++ right.render))
      ∧ (enforce_integer_div gg cs left right).1
        = .error (.CannotEnforce (left.render ++ " / " ++ right.render))
      ∧ (enforce_integer_pow gg cs left right).1
        = .error (.CannotEnforce (left.render ++ " ** " ++ right.render)) := by
  cases left <;> cases right <;> first
    | exact ⟨rfl, rfl, rfl, rfl, rfl, rfl⟩
    | exact absurd rfl h

/-- Witness for C3 at a `u8`/`u16` operand pair. -/
theorem enforce_integer_mismatch_messages_witness :
    (enforce_integer_eq demoGadgets [] (.U8 1) (.U16 2)).1
        = .error (.CannotEnforce ((Integer.U8 1).render ++ " == " ++ (Integer.U16 2).render))
      ∧ (enforce_integer_pow demoGadgets [] (.U8 1) (.U16 2)).1
        = .error (.CannotEnforce ((Integer.U8 1).render ++ " ** " ++ (Integer.U16 2).render)) :=
  ⟨(enforce_integer_mismatch_messages demoGadgets [] (.U8 1) (.U16 2) (by decide)).1,
   (enforce_integer_mismatch_messages demoGadgets [] (.U8 1) (.U16 2) (by decide)).2.2.2.2.2⟩

/-- C4: on operands with differing width tags, every arithmetic and
equality operation returns its width-mismatch error with the constraint
system unchanged — no constraints are appended on that error path
(`evaluate_integer_eq` never receives the system at all). -/
theorem integer_mismatch_leaves_cs_unchanged (gg : IntegerGadgets)
    (cs : ConstraintSystem) (left right : Integer)
    (h : left.getType ≠ right.getType) :
    ((evaluate_integer_eq_withCS cs left right).2 = cs
        ∧ ∃ m, (evaluate_integer_eq_withCS cs left right).1
            = .error (.CannotEvaluate m))
      ∧ ((enforce_integer_eq gg cs left right).2 = cs
        ∧ ∃ m, (enforce_integer_eq gg cs left right).1
            = .error (.CannotEnforce m))
      ∧ ∀ op, (enforce_integer_arith op gg cs left right).2 = cs
        ∧ ∃ m, (enforce_integer_arith op gg cs left right).1
            = .error (.CannotEnforce m) := by
  cases left <;> cases right <;> first
    | exact ⟨⟨rfl, _, rfl⟩, ⟨rfl, _, rfl⟩,
        fun op => by cases op <;> exact ⟨rfl, _, rfl⟩⟩
    | exact absurd rfl h

/-- Witness for C4: a `u8`/`u16` mismatch appends nothing. -/
theorem integer_mismatch_leaves_cs_unchanged_witness :
    (enforce_integer_eq demoGadgets [] (.U8 1) (.U16 2)).2 = ([] : ConstraintSystem)
      ∧ (enforce_integer_arith .add demoGadgets [] (.U8 1) (.U16 2)).2
          = ([] : ConstraintSystem) :=
  ⟨(integer_mismatch_leaves_cs_unchanged demoGadgets [] (.U8 1) (.U16 2)
      (by decide)).2.1.1,
   ((integer_mismatch_leaves_cs_unchanged demoGadgets [] (.U8 1) (.U16 2)
      (by decide)).2.2 .add).1⟩

/-- C1: `generate_constraints` is deterministic — two invocations with
the same program, the same parameter list and the same initial
constraint system produce identical output values and identical
constraint sequences. -/
theorem generate_constraints_deterministic (env : Collaborators)
    (cs : ConstraintSystem) (program : Program)
    (parameters : List (Option InputValue))
    (out1 out2 : ConstrainedValue) (cs1 cs2 : ConstraintSystem)
    (h1 : generate_constraints env cs program parameters = .ok (out1, cs1))
    (h2 : generate_constraints env cs program parameters = .ok (out2, cs2)) :
    out1 = out2 ∧ cs1 = cs2 := by
  rw [h1] at h2
  simp only [Except.ok.injEq, Prod.mk.injEq] at h2
  exact h2

/-- Witness for C1: two runs on a one-function program agree on the
output value `u8 7` and on the emitted constraint sequence. -/
theorem generate_constraints_deterministic_witness :
    ConstrainedValue.Integer (.U8 7) = ConstrainedValue.Integer (.U8 7)
      ∧ ([9] : ConstraintSystem) = [9] :=
  generate_constraints_deterministic demoEnv [] demoProgramMain []
    (.Integer (.U8 7)) (.Integer (.U8 7)) [9] [9] rfl rfl

/-- C7: `integer_from_parameter` fails with `InvalidType` naming the
declared type whenever the model's declared type is not an integer
type, for any supplied value; and with a declared integer type but a
present non-integer literal it fails with `InvalidInteger` naming the
declared type and the offending value's rendering. -/
theorem integer_from_parameter_type_errors (gg : IntegerGadgets)
    (self : ConstrainedProgram) (cs : ConstraintSystem)
    (integer_model : InputModel) (integer_value : Option InputValue) :
    ((∀ it, integer_model._type ≠ Ty.IntegerType it) →
        integer_from_parameter gg self cs integer_model integer_value
          = (.error (.InvalidType integer_model._type.render), self, cs))
      ∧ (∀ it p, integer_model._type = Ty.IntegerType it →
          integer_value = some p → (∀ n, p ≠ InputValue.Integer n) →
          integer_from_parameter gg self cs integer_model integer_value
            = (.error (.InvalidInteger integer_model._type.render p.render),
                self, cs)) := by
  constructor
  · intro h
    cases hm : integer_model._type with
    | IntegerType it => exact absurd hm (h it)
    | Boolean => simp [integer_from_parameter, hm]
    | FieldElement => simp [integer_from_parameter, hm]
  · intro it p ht hv hn
    cases p with
    | Integer n => exact absurd rfl (hn n)
    | Boolean b => simp [integer_from_parameter, ht, hv]
    | Field n => simp [integer_from_parameter, ht, hv]

/-- Witness for C7: a boolean-typed model is rejected with
`InvalidType` whatever the value, and an integer-typed model with a
boolean literal is rejected with `InvalidInteger`. -/
theorem integer_from_parameter_type_errors_witness :
    integer_from_parameter demoGadgets ConstrainedProgram.new []
        ⟨"x", Ty.Boolean⟩ none
      = (.error (.InvalidType Ty.Boolean.render), ConstrainedProgram.new, [])
      ∧ integer_from_parameter demoGadgets ConstrainedProgram.new []
          ⟨"x", Ty.IntegerType .U8⟩ (some (.Boolean true))
        = (.error (.InvalidInteger (Ty.IntegerType .U8).render
            (InputValue.Boolean true).render), ConstrainedProgram.new, []) :=
  ⟨(integer_from_parameter_type_errors demoGadgets ConstrainedProgram.new []
      ⟨"x", Ty.Boolean⟩ none).1 (fun _ ht => nomatch ht),
   (integer_from_parameter_type_errors demoGadgets ConstrainedProgram.new []
      ⟨"x", Ty.IntegerType .U8⟩ (some (.Boolean true))).2 .U8 (.Boolean true)
      rfl rfl (fun _ hn => nomatch hn)⟩

/-- C8: after successful definition resolution, a missing `main` entry
under the program's own scope fails `generate_constraints` with
`NoMain`, and a `main` entry of any non-function kind fails it with
`NoMainFunction`. -/
theorem generate_constraints_main_lookup_errors (env : Collaborators)
    (cs : ConstraintSystem) (program : Program)
    (parameters : List (Option InputValue))
    (tbl : ConstrainedProgram) (cs1 : ConstraintSystem)
    (hres : env.resolve_definitions ConstrainedProgram.new cs program
      = .ok (tbl, cs1)) :
    (tbl.get (new_scope program.get_name "main") = none →
        generate_constraints env cs program parameters = .error .NoMain)
      ∧ ∀ v, tbl.get (new_scope program.get_name "main") = some v →
          (∀ f, v ≠ ConstrainedValue.Function f) →
          generate_constraints env cs program parameters
            = .error .NoMainFunction := by
  constructor
  · intro hget
    simp [generate_constraints, hres, hget]
  · intro v hget hnf
    cases v with
    | Function f => exact absurd rfl (hnf f)
    | Boolean b => simp [generate_constraints, hres, hget]
    | Integer i => simp [generate_constraints, hres, hget]
    | FieldElement f => simp [generate_constraints, hres, hget]

/-- Witness for C8: a program with no definitions hits `NoMain`, one
whose `main` is an integer hits `NoMainFunction`. -/
theorem generate_constraints_main_lookup_errors_witness :
    generate_constraints demoEnv [] demoProgramEmpty [] = .error .NoMain
      ∧ generate_constraints demoEnv [] demoProgramBadMain []
          = .error .NoMainFunction :=
  ⟨(generate_constraints_main_lookup_errors demoEnv [] demoProgramEmpty []
      (ConstrainedProgram.mk []) [] rfl).1 rfl,
   (generate_constraints_main_lookup_errors demoEnv [] demoProgramBadMain []
      (ConstrainedProgram.mk [("prog_main", .Integer (.U8 0))]) [] rfl).2
      (.Integer (.U8 0)) rfl (fun _ hf => nomatch hf)⟩

/-- C9: `generate_constraints` checks its failure conditions in a fixed
priority order — a resolver error is returned as-is (so `NoMain` is not
reported even when `main` is absent), `NoMain` is reported only after
resolution succeeds and takes priority over `NoMainFunction` (a missing
entry never reports `NoMainFunction`), and `NoMainFunction` is the
outcome exactly of an existing non-function `main` entry. -/
theorem generate_constraints_error_priority (env : Collaborators)
    (cs : ConstraintSystem) (program : Program)
    (parameters : List (Option InputValue)) :
    (∀ e, env.resolve_definitions ConstrainedProgram.new cs program = .error e →
        generate_constraints env cs program parameters = .error e)
      ∧ (∀ tbl cs1,
          env.resolve_definitions ConstrainedProgram.new cs program = .ok (tbl, cs1) →
          tbl.get (new_scope program.get_name "main") = none →
          generate_constraints env cs program parameters = .error .NoMain
            ∧ generate_constraints env cs program parameters
                ≠ .error .NoMainFunction)
      ∧ ∀ tbl cs1 v,
          env.resolve_definitions ConstrainedProgram.new cs program = .ok (tbl, cs1) →
          tbl.get (new_scope program.get_name "main") = some v →
          (∀ f, v ≠ ConstrainedValue.Function f) →
          generate_constraints env cs program parameters
            = .error .NoMainFunction := by
  refine ⟨?_, ?_, ?_⟩
  · intro e he
    simp [generate_constraints, he]
  · intro tbl cs1 hres hget
    constructor
    · simp [generate_constraints, hres, hget]
    · simp [generate_constraints, hres, hget]
  · intro tbl cs1 v hres hget hnf
    cases v with
    | Function f => exact absurd rfl (hnf f)
    | Boolean b => simp [generate_constraints, hres, hget]
    | Integer i => simp [generate_constraints, hres, hget]
    | FieldElement f => simp [generate_constraints, hres, hget]

/-- Witness for C9: a failing resolver's error passes through
unchanged, and a resolved program lacking `main` reports `NoMain`, not
`NoMainFunction`. -/
theorem generate_constraints_error_priority_witness :
    generate_constraints demoFailEnv [] demoProgramEmpty []
        = .error (.ImportError "unresolved import")
      ∧ generate_constraints demoEnv [] demoProgramEmpty []
          ≠ .error .NoMainFunction :=
  ⟨(generate_constraints_error_priority demoFailEnv [] demoProgramEmpty []).1
      (.ImportError "unresolved import") rfl,
   ((generate_constraints_error_priority demoEnv [] demoProgramEmpty []).2.1
      (ConstrainedProgram.mk []) [] rfl rfl).2⟩

end Leo
